import Mathlib

set_option maxRecDepth 40000

/-!
Verification development for the OpenSCAD parametric mortise-template
generator.  The server-side geometry derivation (`src/server/storage.ts`,
class `DatabaseStorage`), the imperial fraction formatter
(`decimalToFraction`), the client-side STL parser
(`src/client/src/components/CustomSTLLoader.ts`, both variants) and the
display normalization step (`src/client/src/components/STLViewer.tsx`)
are embedded shallowly.  Real-number arithmetic of the JavaScript source
is modelled with exact rationals; 32-bit float payloads of the STL codec
are modelled as raw 32-bit words, since the parsers move them without
arithmetic.
-/

namespace MortiseSpec

/-- Unit system of a parameter set (`unit_system` in `src/shared/schema.ts`). -/
inductive UnitSystem
  | imperial
  | metric
deriving DecidableEq, Repr

/-- Edge-stop side (`edge_position` in `src/shared/schema.ts`). -/
inductive EdgePosition
  | left
  | right
deriving DecidableEq, Repr

/-- A validated parameter set, field for field the `mortiseTemplateSchema`
object of `src/shared/schema.ts` (all lengths in inches). -/
structure MortiseTemplate where
  unit_system : UnitSystem
  bushing_OD_in : ℚ
  bit_diameter_in : ℚ
  mortise_length_in : ℚ
  mortise_width_in : ℚ
  edge_distance_in : ℚ
  edge_position : EdgePosition
  extension_length_in : ℚ
  extension_width_in : ℚ
deriving DecidableEq, Repr

/-- Bounds of `mortiseTemplateSchema` (`src/shared/schema.ts` lines 6-16):
each dimension field has a zod `.min`/`.max` pair. -/
def validParams (p : MortiseTemplate) : Prop :=
  1/10 ≤ p.bushing_OD_in ∧ p.bushing_OD_in ≤ 50 ∧
  1/10 ≤ p.bit_diameter_in ∧ p.bit_diameter_in ≤ 50 ∧
  1/10 ≤ p.mortise_length_in ∧ p.mortise_length_in ≤ 250 ∧
  1/10 ≤ p.mortise_width_in ∧ p.mortise_width_in ≤ 250 ∧
  1/10 ≤ p.edge_distance_in ∧ p.edge_distance_in ≤ 125 ∧
  1/10 ≤ p.extension_length_in ∧ p.extension_length_in ≤ 250 ∧
  1/10 ≤ p.extension_width_in ∧ p.extension_width_in ≤ 250

instance (p : MortiseTemplate) : Decidable (validParams p) := by
  unfold validParams
  infer_instance

/-- Conversion factor `scale_factor = 25.4` (mm per inch), `src/server/storage.ts` line 311. -/
def scale_factor : ℚ := 254/10

/-- Fixed template thickness constant, `storage.ts` line 306. -/
def template_thickness_in : ℚ := 1/4

/-- Fixed edge-stop height constant, `storage.ts` line 307. -/
def edge_height_in : ℚ := 1/2

/-- Fixed edge-stop thickness constant, `storage.ts` line 308. -/
def edge_thickness_in : ℚ := 3/8

/-- Edge-stop thickness in millimeters: `0.375 in = 9.525 mm`. -/
def edge_thickness_mm : ℚ := edge_thickness_in * scale_factor

/-- The numeric bindings of the OpenSCAD script emitted by
`DatabaseStorage.generateOpenSCADContent` (`src/server/storage.ts`
lines 313-344), all in millimeters except `offset_inches`. -/
structure DerivedGeometry where
  bushing_OD : ℚ
  bit_diameter : ℚ
  mortise_length : ℚ
  mortise_width : ℚ
  template_thickness : ℚ
  edge_height : ℚ
  edge_thickness : ℚ
  extension_length : ℚ
  extension_width : ℚ
  offset : ℚ
  offset_inches : ℚ
  adjusted_edge_distance : ℚ
  cutout_length : ℚ
  cutout_width : ℚ
  corner_radius : ℚ
  template_length : ℚ
  template_width : ℚ
  cutout_y_position : ℚ
  edge_x_offset : ℚ
  cutout_x_position : ℚ
deriving DecidableEq, Repr

/-- The geometric content of the script emitted by
`DatabaseStorage.generateOpenSCADContent`, transcribed binding for
binding from `src/server/storage.ts` lines 313-344. -/
def deriveGeometry (p : MortiseTemplate) : DerivedGeometry :=
  let bushing_OD := p.bushing_OD_in * scale_factor
  let bit_diameter := p.bit_diameter_in * scale_factor
  let mortise_length := p.mortise_length_in * scale_factor
  let mortise_width := p.mortise_width_in * scale_factor
  let template_thickness := template_thickness_in * scale_factor
  let edge_height := edge_height_in * scale_factor
  let edge_thickness := edge_thickness_in * scale_factor
  let extension_length := p.extension_length_in * scale_factor
  let extension_width := p.extension_width_in * scale_factor
  let offset := (bushing_OD - bit_diameter) / 2
  let offset_inches := offset / scale_factor
  let adjusted_edge_distance := (p.edge_distance_in + offset_inches) * scale_factor
  let cutout_length := mortise_length + offset * 2
  let cutout_width := mortise_width + offset * 2
  let corner_radius := bushing_OD / 2
  let template_length := cutout_length + extension_length * 2
  let template_width := cutout_width + 2 * scale_factor + extension_width
  let cutout_y_position :=
    match p.edge_position with
    | .left => adjusted_edge_distance + edge_thickness
    | .right => template_width - adjusted_edge_distance - cutout_width - edge_thickness
  let edge_x_offset :=
    match p.edge_position with
    | .left => 0
    | .right => template_width - edge_thickness
  let cutout_x_position := (template_length - cutout_length) / 2
  { bushing_OD := bushing_OD
    bit_diameter := bit_diameter
    mortise_length := mortise_length
    mortise_width := mortise_width
    template_thickness := template_thickness
    edge_height := edge_height
    edge_thickness := edge_thickness
    extension_length := extension_length
    extension_width := extension_width
    offset := offset
    offset_inches := offset_inches
    adjusted_edge_distance := adjusted_edge_distance
    cutout_length := cutout_length
    cutout_width := cutout_width
    corner_radius := corner_radius
    template_length := template_length
    template_width := template_width
    cutout_y_position := cutout_y_position
    edge_x_offset := edge_x_offset
    cutout_x_position := cutout_x_position }

/-- Method `DatabaseStorage.generateOpenSCADContent` (`src/server/storage.ts`
lines 272-410).  The method contains no `throw` statement and no
validation of its inputs; its result type is modelled as an `Except` to
make the absence of any failure path explicit. -/
def generateOpenSCADContent (p : MortiseTemplate) : Except String DerivedGeometry :=
  Except.ok (deriveGeometry p)

/-- The Imperial scenario of the specification: bushing 5/16 in,
bit 1/4 in, mortise 1 3/4 in by 3/8 in, edge distance 1/4 in, right
edge stop, 3 in extensions. -/
def scenarioParams : MortiseTemplate :=
  { unit_system := .imperial
    bushing_OD_in := 5/16
    bit_diameter_in := 1/4
    mortise_length_in := 7/4
    mortise_width_in := 3/8
    edge_distance_in := 1/4
    edge_position := .right
    extension_length_in := 3
    extension_width_in := 3 }

/-- The same scenario with `bushing = 0.2 in < bit = 0.25 in`. -/
def badOffsetParams : MortiseTemplate :=
  { scenarioParams with bushing_OD_in := 1/5 }

/-! ## Imperial fraction formatter

`DatabaseStorage.decimalToFraction`, `src/server/storage.ts`
lines 234-263. -/

/-- JavaScript `Math.round`: round half toward positive infinity,
`Math.round x = ⌊x + 1/2⌋`. -/
def jsRound (q : ℚ) : ℤ := ⌊q + 1/2⌋

/-- Accumulator of the best-fraction search loop of `decimalToFraction`
(`numerator`, `denominator`, `bestError`). -/
structure FracState where
  num : ℤ
  den : ℤ
  err : ℚ
deriving DecidableEq, Repr

/-- The `for (let d = 1; d <= maxDenominator; d++)` loop of
`decimalToFraction` (`src/server/storage.ts` lines 241-249), started
from `numerator = denominator = 1`, `bestError = |decimal - 1|`. -/
def fracLoop (decimal : ℚ) : FracState :=
  (List.range 16).foldl
    (fun st i =>
      let d : ℤ := (i : ℤ) + 1
      let n := jsRound (decimal * (d : ℚ))
      let e := |decimal - (n : ℚ) / (d : ℚ)|
      if e < st.err then ⟨n, d, e⟩ else st)
    ⟨1, 1, |decimal - 1|⟩

/-- Method `DatabaseStorage.decimalToFraction` (`src/server/storage.ts`
lines 234-263).  `Math.floor(numerator/denominator)` is the rational
floor; the JavaScript `%` on the integer operands in scope here is the
truncated remainder `Int.tmod`. -/
def decimalToFraction (decimal : ℚ) : String :=
  let st := fracLoop decimal
  if st.den = 1 then
    toString st.num
  else
    let wholePart : ℤ := ⌊(st.num : ℚ) / (st.den : ℚ)⌋
    let remainingNumerator : ℤ := Int.tmod st.num st.den
    if wholePart = 0 then
      toString remainingNumerator ++ "/" ++ toString st.den
    else
      toString wholePart ++ "-" ++ toString remainingNumerator ++ "/" ++ toString st.den

/-! ## Client STL parser

`src/client/src/components/CustomSTLLoader.ts`.  The file holds two
snapshots of the class: the first (lines 22-143) with `isBinary` /
`parseBinary` / `parseASCII`, the second (lines 166-266) with a single
sequential-reader `parse`.  Byte buffers are `List ℕ` (each entry one
byte); the 32-bit float payloads are kept as raw little-endian 32-bit
words, exactly as the parsers move them. -/

/-- The error messages thrown by the two parser variants. -/
inductive StlError
  | tooSmall
  | truncated
  | noFaces
  | tooManyFaces
deriving DecidableEq, Repr

/-- Read `DataView.getUint32(off, true)`: little-endian 32-bit read at byte
offset `off`.  All uses in the source are bounds-checked before the
read; out-of-range bytes default to `0`. -/
def readU32 (buf : List ℕ) (off : ℕ) : ℕ :=
  buf.getD off 0 + 256 * buf.getD (off + 1) 0 +
    65536 * buf.getD (off + 2) 0 + 16777216 * buf.getD (off + 3) 0

/-- One STL vector: three 32-bit float payloads kept as raw words. -/
structure Vec3 where
  x : ℕ
  y : ℕ
  z : ℕ
deriving DecidableEq, Repr

/-- One STL facet: a normal and three vertices, per-face-flat. -/
structure Triangle where
  n : Vec3
  a : Vec3
  b : Vec3
  c : Vec3
deriving DecidableEq, Repr

/-- Three consecutive 32-bit little-endian reads starting at `off`. -/
def readVec3 (buf : List ℕ) (off : ℕ) : Vec3 :=
  ⟨readU32 buf off, readU32 buf (off + 4), readU32 buf (off + 8)⟩

/-- One 50-byte binary STL record starting at `off`: normal, three
vertices, then the 2-byte attribute field that both parser variants
skip. -/
def readTriangle (buf : List ℕ) (off : ℕ) : Triangle :=
  ⟨readVec3 buf off, readVec3 buf (off + 12), readVec3 buf (off + 24), readVec3 buf (off + 36)⟩

/-- The triangle-reading loops of `parseBinary` (first variant,
lines 73-93) and of the second variant's `parse` (lines 219-242): face
`i` starts at byte `84 + 50·i`. -/
def parseBinaryTriangles (buf : List ℕ) (n : ℕ) : List Triangle :=
  (List.range n).map (fun i => readTriangle buf (84 + 50 * i))

/-- Method `CustomSTLLoader.isBinary` (first variant, lines 38-53): throws
`'STL file too small to be valid'` below 84 bytes, throws
`'STL file is truncated'` when the buffer is shorter than
`84 + 50·nFaces`, and otherwise returns `true` — it never returns
`false`, so the ASCII branch of `parse` (line 35) is unreachable. -/
def isBinary (buf : List ℕ) : Except StlError Bool :=
  if buf.length < 84 then .error .tooSmall
  else if buf.length < 84 + 50 * readU32 buf 80 then .error .truncated
  else .ok true

/-- Method `CustomSTLLoader.parse` (first variant, lines 22-36) composed with
`parseBinary` (lines 55-102).  `parseBinary` re-checks
`byteLength < expectedSize` (line 68); that check can no longer fire
after `isBinary`, and the `parseASCII` fallback is dead code because
`isBinary` never yields `false` (lemma `isBinary_ne_false`). -/
def parse (buf : List ℕ) : Except StlError (List Triangle) :=
  match isBinary buf with
  | .error e => .error e
  | .ok _ =>
      let nFaces := readU32 buf 80
      if buf.length < 84 + 50 * nFaces then .error .truncated
      else .ok (parseBinaryTriangles buf nFaces)

/-- The second snapshot's `parse` (lines 166-266): size check, truncation
check, zero-face check, 5,000,000-face sanity bound, then the sequential
binary read.  It has no ASCII path at all. -/
def parseV2 (buf : List ℕ) : Except StlError (List Triangle) :=
  if buf.length < 84 then .error .tooSmall
  else
    let triangles := readU32 buf 80
    if buf.length < 84 + 50 * triangles then .error .truncated
    else if triangles = 0 then .error .noFaces
    else if triangles > 5000000 then .error .tooManyFaces
    else .ok (parseBinaryTriangles buf triangles)

/-! ## Mesh interchange codec (spec-modelled)

The repository ships only decoders; no STL encoder exists anywhere under
the source tree.  The encoder and the canonical validating decoder are
therefore modelled from the specification (spec sections 4.3 and 4.4). -/

/-- Error kinds of the specified codec. -/
inductive MeshError
  | unrecognizedFormat
  | truncated
  | emptyMesh
deriving DecidableEq, Repr

/-- Modelled from the spec: little-endian byte serialization of a 32-bit
word (`u32 LE` of spec section 4.4; no encoder exists in the source). -/
def u32le (w : ℕ) : List ℕ :=
  [w % 256, w / 256 % 256, w / 65536 % 256, w / 16777216 % 256]

/-- Modelled from the spec: one 50-byte binary triangle record — 3×f32
normal, 3×(3×f32 vertex), 2-byte zero attribute field (spec
section 4.4; no encoder exists in the source). -/
def encodeTriangle (t : Triangle) : List ℕ :=
  u32le t.n.x ++ u32le t.n.y ++ u32le t.n.z ++
  u32le t.a.x ++ u32le t.a.y ++ u32le t.a.z ++
  u32le t.b.x ++ u32le t.b.y ++ u32le t.b.z ++
  u32le t.c.x ++ u32le t.c.y ++ u32le t.c.z ++ [0, 0]

/-- Modelled from the spec: binary STL encoding — 80-byte header
(implementation-defined, here zeros), `u32 LE` triangle count, then the
50-byte records (spec section 4.4; no encoder exists in the source). -/
def encodeBinary (m : List Triangle) : List ℕ :=
  List.replicate 80 0 ++ u32le m.length ++ (m.map encodeTriangle).flatten

/-- Sequential word read: first four bytes little-endian, rest of the
stream.  A short stream yields the padded-with-zero word. -/
def rword : List ℕ → ℕ × List ℕ
  | b0 :: b1 :: b2 :: b3 :: r => (b0 + 256 * b1 + 65536 * b2 + 16777216 * b3, r)
  | l => (readU32 l 0, [])

/-- Sequential vector read: three words. -/
def rvec (l : List ℕ) : Vec3 × List ℕ :=
  let p0 := rword l
  let p1 := rword p0.2
  let p2 := rword p1.2
  (⟨p0.1, p1.1, p2.1⟩, p2.2)

/-- Sequential triangle read: normal, three vertices, skip the 2-byte
attribute field. -/
def rtri (l : List ℕ) : Triangle × List ℕ :=
  let pn := rvec l
  let pa := rvec pn.2
  let pb := rvec pa.2
  let pc := rvec pb.2
  (⟨pn.1, pa.1, pb.1, pc.1⟩, pc.2.drop 2)

/-- Read `n` consecutive 50-byte triangle records. -/
def rtris : ℕ → List ℕ → List Triangle
  | 0, _ => []
  | n + 1, l => (rtri l).1 :: rtris n (rtri l).2

/-- Modelled from the spec: the canonical binary decoder of spec
section 4.3 — a buffer is binary iff its length is exactly
`84 + 50·n` for the count `n` read at offset 80 and `n` is within the
sane bound `5,000,000`; zero facets is `EmptyMesh`; anything else falls
through to the (here absent) ASCII path as `UnrecognizedFormat`. -/
def decodeBinary (buf : List ℕ) : Except MeshError (List Triangle) :=
  let n := readU32 buf 80
  if 84 ≤ buf.length ∧ buf.length = 84 + 50 * n ∧ n ≤ 5000000 then
    if n = 0 then .error .emptyMesh
    else .ok (rtris n (buf.drop 84))
  else .error .unrecognizedFormat

/-- ASCII STL abstracted to its token stream (whitespace is
insignificant per spec section 4.3, so tokens are the faithful
granularity).  Numeric tokens carry the exact value printed. -/
inductive Tok
  | solid
  | endsolid
  | facet
  | normal
  | outer
  | loop
  | endloop
  | endfacet
  | vertex
  | num (q : ℚ)
deriving DecidableEq, Repr

/-- One ASCII facet: a normal and three vertices over exact numbers. -/
structure ATriangle where
  nx : ℚ
  ny : ℚ
  nz : ℚ
  ax : ℚ
  ay : ℚ
  az : ℚ
  bx : ℚ
  by2 : ℚ
  bz : ℚ
  cx : ℚ
  cy : ℚ
  cz : ℚ
deriving DecidableEq, Repr

/-- Modelled from the spec: token stream of one
`facet normal ... outer loop ... endloop endfacet` block (spec
sections 4.3 and 4.4; no encoder exists in the source). -/
def facetToks (t : ATriangle) : List Tok :=
  [.facet, .normal, .num t.nx, .num t.ny, .num t.nz, .outer, .loop,
   .vertex, .num t.ax, .num t.ay, .num t.az,
   .vertex, .num t.bx, .num t.by2, .num t.bz,
   .vertex, .num t.cx, .num t.cy, .num t.cz,
   .endloop, .endfacet]

/-- Modelled from the spec: ASCII STL encoding
`solid <name> ... endsolid` with one facet block per triangle (spec
section 4.4; no encoder exists in the source). -/
def encodeAscii (m : List ATriangle) : List Tok :=
  Tok.solid :: (m.map facetToks).flatten ++ [Tok.endsolid]

/-- Modelled from the spec: parse the facet blocks of an ASCII STL body
up to `endsolid`; a malformed block fails. -/
def decodeFacets : List Tok → Option (List ATriangle)
  | [Tok.endsolid] => some []
  | Tok.facet :: Tok.normal :: Tok.num nx :: Tok.num ny :: Tok.num nz ::
    Tok.outer :: Tok.loop ::
    Tok.vertex :: Tok.num ax :: Tok.num ay :: Tok.num az ::
    Tok.vertex :: Tok.num bx :: Tok.num b2 :: Tok.num bz ::
    Tok.vertex :: Tok.num cx :: Tok.num cy :: Tok.num cz ::
    Tok.endloop :: Tok.endfacet :: rest =>
      (decodeFacets rest).map
        (fun ts => ⟨nx, ny, nz, ax, ay, az, bx, b2, bz, cx, cy, cz⟩ :: ts)
  | _ => none

/-- Modelled from the spec: ASCII decoder — the token `solid` must
appear, a file with zero facets is `EmptyMesh`, anything unparsable is
`UnrecognizedFormat` (spec section 4.3). -/
def decodeAscii (l : List Tok) : Except MeshError (List ATriangle) :=
  match l with
  | Tok.solid :: rest =>
      match decodeFacets rest with
      | some [] => .error .emptyMesh
      | some ts => .ok ts
      | none => .error .unrecognizedFormat
  | _ => .error .unrecognizedFormat

/-- All twelve word payloads of a triangle are 32-bit values. -/
def TriangleOK (t : Triangle) : Prop :=
  t.n.x < 2^32 ∧ t.n.y < 2^32 ∧ t.n.z < 2^32 ∧
  t.a.x < 2^32 ∧ t.a.y < 2^32 ∧ t.a.z < 2^32 ∧
  t.b.x < 2^32 ∧ t.b.y < 2^32 ∧ t.b.z < 2^32 ∧
  t.c.x < 2^32 ∧ t.c.y < 2^32 ∧ t.c.z < 2^32

instance (t : Triangle) : Decidable (TriangleOK t) := by
  unfold TriangleOK
  infer_instance

/-! ## Display normalization

`src/client/src/components/STLViewer.tsx` lines 147-163: after parsing,
the geometry is centered on its bounding-box center and scaled by
`2 / maxDim`.  Decoded vertex coordinates are finite doubles (exact
rationals here); the scale factor and the scaled coordinates follow
IEEE-754 special-value rules (`2 / 0 = Infinity`,
`Infinity · 0 = NaN`), modelled by `JsNum`. -/

/-- A JavaScript double restricted to the values reachable here: a
finite (exact rational) value or one of the special values. -/
inductive JsNum
  | fin (q : ℚ)
  | inf
  | ninf
  | nan
deriving DecidableEq, Repr

/-- Finiteness of a JavaScript double. -/
def JsNum.isFinite : JsNum → Bool
  | .fin _ => true
  | _ => false

/-- JavaScript division of finite doubles: `a / 0` is `±Infinity` (or
`NaN` for `0 / 0`), otherwise exact. -/
def jsDiv (a b : ℚ) : JsNum :=
  if b = 0 then
    if 0 < a then .inf else if a < 0 then .ninf else .nan
  else .fin (a / b)

/-- JavaScript multiplication of a (possibly special) scale factor with
a finite coordinate: `Infinity · 0 = NaN`, signs propagate. -/
def jsMul (s : JsNum) (c : ℚ) : JsNum :=
  match s with
  | .fin q => .fin (q * c)
  | .inf => if 0 < c then .inf else if c < 0 then .ninf else .nan
  | .ninf => if 0 < c then .ninf else if c < 0 then .inf else .nan
  | .nan => .nan

/-- One vertex position with exact coordinates. -/
structure VertexQ where
  x : ℚ
  y : ℚ
  z : ℚ
deriving DecidableEq, Repr

/-- Axis-aligned bounding box of a vertex list
(`geometry.computeBoundingBox()`); `none` for an empty list. -/
def boundingBox (vs : List VertexQ) : Option (VertexQ × VertexQ) :=
  match vs with
  | [] => none
  | v :: rest =>
      some (rest.foldl
        (fun (mm : VertexQ × VertexQ) w =>
          (⟨min mm.1.x w.x, min mm.1.y w.y, min mm.1.z w.z⟩,
           ⟨max mm.2.x w.x, max mm.2.y w.y, max mm.2.z w.z⟩))
        (v, v))

/-- The normalization step of `STLViewer` (lines 147-163): translate by
the negated bounding-box center, then scale every coordinate by
`2 / maxDim` where `maxDim` is the largest bounding-box extent.  There
is no guard against a zero-size bounding box. -/
def normalizeGeometry (vs : List VertexQ) : List (JsNum × JsNum × JsNum) :=
  match boundingBox vs with
  | none => vs.map (fun v => (.fin v.x, .fin v.y, .fin v.z))
  | some (mn, mx) =>
      let cx := (mn.x + mx.x) / 2
      let cy := (mn.y + mx.y) / 2
      let cz := (mn.z + mx.z) / 2
      let maxDim := max (mx.x - mn.x) (max (mx.y - mn.y) (mx.z - mn.z))
      let scale := jsDiv 2 maxDim
      vs.map (fun v => (jsMul scale (v.x - cx), jsMul scale (v.y - cy), jsMul scale (v.z - cz)))

/-- A triangle whose three vertices coincide at `(1, 2, 3)`: the
degenerate mesh used against the normalizer. -/
def degenerateVertices : List VertexQ :=
  [⟨1, 2, 3⟩, ⟨1, 2, 3⟩, ⟨1, 2, 3⟩]

/-- A buffer below the 84-byte header size. -/
def tinyBuf : List ℕ := List.replicate 10 0

/-- An 84-byte buffer that declares one triangle (`n = 1` at offset 80)
but carries none: required length `134 > 84`. -/
def truncBuf : List ℕ := List.replicate 80 0 ++ [1, 0, 0, 0]

/-- A 134-byte all-zero buffer: its declared triangle count is `0`, so
its length is not `84 + 50·0 = 84`, yet the parser accepts it as
binary. -/
def oddSizeBuf : List ℕ := List.replicate 134 0

/-- A sample binary triangle with twelve distinct 32-bit payloads. -/
def sampleTriangle : Triangle := ⟨⟨1, 2, 3⟩, ⟨4, 5, 6⟩, ⟨7, 8, 9⟩, ⟨10, 11, 12⟩⟩

/-- A sample ASCII triangle (unit triangle in the plane `z = 0`). -/
def sampleATriangle : ATriangle := ⟨0, 0, 1, 0, 0, 0, 1, 0, 0, 0, 1, 0⟩

/-! ## Claims about the STL parser -/

/-- The method `isBinary` never returns `false`: the ASCII fallback of the first
variant's `parse` is unreachable. -/
theorem isBinary_ne_false (buf : List ℕ) : isBinary buf ≠ .ok false := by
  unfold isBinary
  split
  · exact fun h => by cases h
  · split
    · exact fun h => by cases h
    · exact fun h => by cases h

/-- C1 (amended): the loader treats a buffer as binary iff its length
is at least 84 and at least `84 + 50·n` for the little-endian count `n`
at offset 80 (length may exceed the exact size).  There is no ASCII
fallback and no `UnrecognizedFormat` error: shorter buffers fail with
the too-small or truncated errors. -/
theorem C1_format_detection :
    ∀ buf : List ℕ,
      (buf.length < 84 → parse buf = .error .tooSmall) ∧
      (84 ≤ buf.length → buf.length < 84 + 50 * readU32 buf 80 →
        parse buf = .error .truncated) ∧
      (84 ≤ buf.length → 84 + 50 * readU32 buf 80 ≤ buf.length →
        parse buf = .ok (parseBinaryTriangles buf (readU32 buf 80))) := by
  intro buf
  refine ⟨fun h => ?_, fun h1 h2 => ?_, fun h1 h2 => ?_⟩
  · simp only [parse, isBinary]
    rw [if_pos h]
  · simp only [parse, isBinary]
    rw [if_neg (by omega), if_pos h2]
  · simp only [parse, isBinary]
    rw [if_neg (by omega), if_neg (by omega), if_neg (by omega)]

/-- C1 (counterexample): the 134-byte zero buffer has length
`≠ 84 + 50·0`, contains no `"solid"` token, yet `parse` decodes it as a
binary mesh with zero triangles instead of raising
`UnrecognizedFormat`. -/
theorem C1_counterexample :
    oddSizeBuf.length ≠ 84 + 50 * readU32 oddSizeBuf 80 ∧
    parse oddSizeBuf = .ok [] := by
  exact ⟨by decide, rfl⟩

/-- C1 (witness): the three branches of the amended format-detection
theorem at concrete buffers. -/
theorem C1_witness :
    parse tinyBuf = .error .tooSmall ∧
    parse truncBuf = .error .truncated ∧
    parse oddSizeBuf = .ok (parseBinaryTriangles oddSizeBuf (readU32 oddSizeBuf 80)) :=
  ⟨(C1_format_detection tinyBuf).1 (by decide),
   (C1_format_detection truncBuf).2.1 (by decide) (by decide),
   (C1_format_detection oddSizeBuf).2.2 (by decide) (by decide)⟩

/-- C4: a buffer (large enough to carry the count field) whose declared
triangle count requires more bytes than are present is rejected as
truncated by both parser variants; no partial mesh is returned. -/
theorem C4_truncated_rejected :
    ∀ buf : List ℕ, 84 ≤ buf.length → buf.length < 84 + 50 * readU32 buf 80 →
      parse buf = .error .truncated ∧ parseV2 buf = .error .truncated := by
  intro buf h1 h2
  constructor
  · simp only [parse, isBinary]
    rw [if_neg (by omega), if_pos h2]
  · simp only [parseV2]
    rw [if_neg (by omega), if_pos h2]

/-- C4 (witness): the truncation theorem at the 84-byte buffer that
declares one triangle. -/
theorem C4_witness :
    parse truncBuf = .error .truncated ∧ parseV2 truncBuf = .error .truncated :=
  C4_truncated_rejected truncBuf (by decide) (by decide)

/-! ## Claim about the display normalization -/

/-- C8: the normalization step has no degenerate-mesh guard.  On a mesh
whose vertices all coincide at `(1,2,3)` the bounding box has zero
size, the scale factor is `2 / 0 = Infinity`, and every output
coordinate is `Infinity · 0 = NaN`: the mesh is not returned unchanged
and the result is non-finite. -/
theorem C8_degenerate_nan :
    normalizeGeometry degenerateVertices =
      [(JsNum.nan, JsNum.nan, JsNum.nan), (JsNum.nan, JsNum.nan, JsNum.nan),
       (JsNum.nan, JsNum.nan, JsNum.nan)] ∧
    normalizeGeometry degenerateVertices ≠
      degenerateVertices.map (fun v => (JsNum.fin v.x, JsNum.fin v.y, JsNum.fin v.z)) ∧
    ∀ c ∈ normalizeGeometry degenerateVertices, c.1.isFinite = false := by
  have h : normalizeGeometry degenerateVertices =
      [(JsNum.nan, JsNum.nan, JsNum.nan), (JsNum.nan, JsNum.nan, JsNum.nan),
       (JsNum.nan, JsNum.nan, JsNum.nan)] := by
    norm_num [normalizeGeometry, boundingBox, degenerateVertices, jsDiv, jsMul]
  refine ⟨h, ?_, ?_⟩
  · rw [h]; decide
  · rw [h]; decide

/-! ## Claims about the geometry derivation -/

/-- C2 (amended): geometry derivation never fails.
`DatabaseStorage.generateOpenSCADContent` contains no validation and no
typed error: it succeeds on every parameter set, and when
`bushing_outer_diameter < bit_diameter` it silently emits geometry with
a negative offset instead of failing with `InvalidOffset`. -/
theorem C2_derivation_never_fails :
    ∀ p : MortiseTemplate,
      generateOpenSCADContent p = .ok (deriveGeometry p) ∧
      (p.bushing_OD_in < p.bit_diameter_in → (deriveGeometry p).offset < 0) := by
  intro p
  refine ⟨rfl, fun h => ?_⟩
  simp only [deriveGeometry, scale_factor]
  linarith

/-- C2 (counterexample): at `bushing = 0.2 in`, `bit = 0.25 in` the
derivation does not fail with `InvalidOffset`; it returns geometry whose
offset is `-0.635 mm`. -/
theorem C2_counterexample :
    generateOpenSCADContent badOffsetParams = .ok (deriveGeometry badOffsetParams) ∧
    (deriveGeometry badOffsetParams).offset = -127/200 ∧
    (deriveGeometry badOffsetParams).offset < 0 := by
  refine ⟨rfl, ?_, ?_⟩ <;>
    norm_num [deriveGeometry, badOffsetParams, scenarioParams, scale_factor]

/-- C2 (witness): the amended theorem applied at the bad-offset input. -/
theorem C2_witness :
    generateOpenSCADContent badOffsetParams = .ok (deriveGeometry badOffsetParams) ∧
    (deriveGeometry badOffsetParams).offset < 0 :=
  ⟨(C2_derivation_never_fails badOffsetParams).1,
   (C2_derivation_never_fails badOffsetParams).2
     (by norm_num [badOffsetParams, scenarioParams])⟩

/-- C5 (amended): the derived plate width is
`cutout_width + 2 inches + extension_width` — the additive constant is
the literal `2 * scale_factor = 50.8 mm` of `storage.ts` line 337, not
the edge-stop thickness `0.375 in = 9.525 mm` used to draw the
edge-stop solid. -/
theorem C5_plate_width :
    ∀ p : MortiseTemplate,
      (deriveGeometry p).template_width =
        (deriveGeometry p).cutout_width + 2 * scale_factor +
          p.extension_width_in * scale_factor ∧
      2 * scale_factor ≠ edge_thickness_mm := by
  intro p
  constructor
  · simp only [deriveGeometry]
  · norm_num [scale_factor, edge_thickness_mm, edge_thickness_in]

/-- C5 (counterexample): at the Imperial scenario the plate width is not
`cutout_width + edge_stop_thickness + extension_width`
(`138.1125 mm ≠ 96.8375 mm`). -/
theorem C5_counterexample :
    (deriveGeometry scenarioParams).template_width ≠
      (deriveGeometry scenarioParams).cutout_width + edge_thickness_mm +
        scenarioParams.extension_width_in * scale_factor := by
  norm_num [deriveGeometry, scenarioParams, scale_factor, edge_thickness_mm, edge_thickness_in]

/-- C6 (amended): for `edge_position = Right` the cutout origin y is
`plate_width − (edge_distance + offset_inches)·25.4 − cutout_width −
edge_stop_thickness`: the code adds the bushing offset to the user's
edge distance (`adjusted_edge_distance`, `storage.ts` line 330) before
measuring back from the far plate edge. -/
theorem C6_right_edge_y :
    ∀ p : MortiseTemplate, p.edge_position = .right →
      (deriveGeometry p).cutout_y_position =
        (deriveGeometry p).template_width -
          (p.edge_distance_in + (deriveGeometry p).offset_inches) * scale_factor -
          (deriveGeometry p).cutout_width - edge_thickness_mm := by
  intro p h
  simp only [deriveGeometry, edge_thickness_mm, h]

/-- C6 (counterexample): at the Imperial scenario (offset `1/32 in`) the
cutout origin y is `110.33125 mm`, not the claimed
`plate_width − edge_distance·25.4 − cutout_width − edge_stop_thickness
= 111.125 mm`. -/
theorem C6_counterexample :
    (deriveGeometry scenarioParams).cutout_y_position ≠
      (deriveGeometry scenarioParams).template_width -
        scenarioParams.edge_distance_in * scale_factor -
        (deriveGeometry scenarioParams).cutout_width - edge_thickness_mm := by
  norm_num [deriveGeometry, scenarioParams, scale_factor, edge_thickness_mm, edge_thickness_in]

/-- C6 (witness): the amended formula instantiated at the Imperial
scenario (a Right-edge parameter set). -/
theorem C6_witness :
    (deriveGeometry scenarioParams).cutout_y_position =
      (deriveGeometry scenarioParams).template_width -
        (scenarioParams.edge_distance_in + (deriveGeometry scenarioParams).offset_inches) *
          scale_factor -
        (deriveGeometry scenarioParams).cutout_width - edge_thickness_mm :=
  C6_right_edge_y scenarioParams rfl

/-- C7: the derived geometry satisfies the offset, cutout, corner-radius
and plate-length formulas, and at the Imperial scenario (bushing
5/16 in, bit 1/4 in, mortise 1.75 in × 0.375 in) derivation succeeds
with offset `1/32 in = 0.03125 in` and cutout
`1.8125 in × 0.4375 in`. -/
theorem C7_derivation_formulas :
    (∀ p : MortiseTemplate,
      (deriveGeometry p).offset =
        (p.bushing_OD_in - p.bit_diameter_in) * scale_factor / 2 ∧
      (deriveGeometry p).offset_inches = (p.bushing_OD_in - p.bit_diameter_in) / 2 ∧
      (deriveGeometry p).cutout_length =
        p.mortise_length_in * scale_factor + 2 * (deriveGeometry p).offset ∧
      (deriveGeometry p).cutout_width =
        p.mortise_width_in * scale_factor + 2 * (deriveGeometry p).offset ∧
      (deriveGeometry p).corner_radius = p.bushing_OD_in * scale_factor / 2 ∧
      (deriveGeometry p).template_length =
        (deriveGeometry p).cutout_length + 2 * (p.extension_length_in * scale_factor)) ∧
    generateOpenSCADContent scenarioParams = .ok (deriveGeometry scenarioParams) ∧
    (deriveGeometry scenarioParams).offset_inches = 1/32 ∧
    (deriveGeometry scenarioParams).cutout_length = 29/16 * scale_factor ∧
    (deriveGeometry scenarioParams).cutout_width = 7/16 * scale_factor := by
  refine ⟨fun p => ?_, rfl, ?_, ?_, ?_⟩
  · refine ⟨?_, ?_, ?_, ?_, ?_, ?_⟩ <;>
      simp only [deriveGeometry, scale_factor] <;> ring
  all_goals norm_num [deriveGeometry, scenarioParams, scale_factor]

/-- C10: for every schema-valid parameter set the cutout fits the plate:
`cutout_length ≤ plate_length` and
`cutout_width + edge_stop_thickness ≤ plate_width`. -/
theorem C10_containment :
    ∀ p : MortiseTemplate, validParams p →
      (deriveGeometry p).cutout_length ≤ (deriveGeometry p).template_length ∧
      (deriveGeometry p).cutout_width + edge_thickness_mm ≤
        (deriveGeometry p).template_width := by
  intro p hv
  obtain ⟨-, -, -, -, -, -, -, -, -, -, hel, -, hew, -⟩ := hv
  simp only [deriveGeometry, scale_factor, edge_thickness_mm, edge_thickness_in]
  constructor <;> linarith

/-- C10 (witness): the containment invariant at the Imperial scenario. -/
theorem C10_witness :
    validParams scenarioParams ∧
    (deriveGeometry scenarioParams).cutout_length ≤
      (deriveGeometry scenarioParams).template_length ∧
    (deriveGeometry scenarioParams).cutout_width + edge_thickness_mm ≤
      (deriveGeometry scenarioParams).template_width :=
  ⟨by norm_num [validParams, scenarioParams],
   C10_containment scenarioParams (by norm_num [validParams, scenarioParams])⟩

/-- C9: the imperial fraction formatter renders `0.3125` as `"5/16"`,
`1.75` as `"1-3/4"`, `0.25` as `"1/4"` and `2.0` as `"2"`. -/
theorem C9_fraction_formatting :
    decimalToFraction (5/16) = "5/16" ∧
    decimalToFraction (7/4) = "1-3/4" ∧
    decimalToFraction (1/4) = "1/4" ∧
    decimalToFraction 2 = "2" := by
  refine ⟨?_, ?_, ?_, ?_⟩ <;>
    first
    | (norm_num [decimalToFraction, fracLoop, jsRound, List.range_succ,
         apply_ite FracState.err, apply_ite FracState.num, apply_ite FracState.den,
         abs_of_nonneg, abs_of_nonpos]
       all_goals decide)

/-! ## Claims about the mesh codec (spec-modelled) -/

/-- Each binary triangle record is 50 bytes. -/
theorem encodeTriangle_length (t : Triangle) : (encodeTriangle t).length = 50 := by
  simp [encodeTriangle, u32le]

/-- The record section of a binary encoding is `50·n` bytes. -/
theorem flatten_encode_length (m : List Triangle) :
    ((m.map encodeTriangle).flatten).length = 50 * m.length := by
  induction m with
  | nil => rfl
  | cons t ts ih =>
      simp only [List.map_cons, List.flatten_cons, List.length_append,
        encodeTriangle_length, List.length_cons, ih]
      ring

/-- A binary encoding is `84 + 50·n` bytes long. -/
theorem encodeBinary_length (m : List Triangle) :
    (encodeBinary m).length = 84 + 50 * m.length := by
  rw [encodeBinary, List.length_append, List.length_append, flatten_encode_length,
    List.length_replicate]
  simp [u32le]

/-- The count field of a binary encoding reads back as the triangle
count. -/
theorem readU32_encodeBinary (m : List Triangle) (h : m.length < 2^32) :
    readU32 (encodeBinary m) 80 = m.length := by
  have hrep : (List.replicate 80 (0 : ℕ)).length = 80 := by simp
  have hget : ∀ i : ℕ, (encodeBinary m).getD (80 + i) 0 =
      (u32le m.length ++ (m.map encodeTriangle).flatten).getD i 0 := by
    intro i
    rw [encodeBinary, List.append_assoc, List.getD_append_right]
    · rw [hrep]
      simp
    · omega
  have h0 := hget 0
  have h1 := hget 1
  have h2 := hget 2
  have h3 := hget 3
  simp only [Nat.add_zero] at h0
  unfold readU32
  rw [h0, h1, h2, h3]
  simp only [u32le, List.cons_append, List.getD_cons_zero, List.getD_cons_succ]
  omega

/-- Reading one word back from its serialization returns the word and
the rest of the stream. -/
theorem rword_u32le (w : ℕ) (r : List ℕ) (h : w < 2^32) :
    rword (u32le w ++ r) = (w, r) := by
  simp only [u32le, List.cons_append, List.nil_append, rword, Prod.mk.injEq]
  exact ⟨by omega, trivial⟩

/-- Reading one triangle record back from its serialization returns the
triangle and the rest of the stream. -/
theorem rtri_encode (t : Triangle) (r : List ℕ) (h : TriangleOK t) :
    rtri (encodeTriangle t ++ r) = (t, r) := by
  obtain ⟨h1, h2, h3, h4, h5, h6, h7, h8, h9, h10, h11, h12⟩ := h
  simp only [encodeTriangle, List.append_assoc]
  simp only [rtri, rvec,
    rword_u32le _ _ h1, rword_u32le _ _ h2, rword_u32le _ _ h3,
    rword_u32le _ _ h4, rword_u32le _ _ h5, rword_u32le _ _ h6,
    rword_u32le _ _ h7, rword_u32le _ _ h8, rword_u32le _ _ h9,
    rword_u32le _ _ h10, rword_u32le _ _ h11, rword_u32le _ _ h12]
  simp

/-- Reading `n` records back from the serialization of an `n`-triangle
mesh returns the mesh. -/
theorem rtris_encode (m : List Triangle) (h : ∀ t ∈ m, TriangleOK t) :
    rtris m.length ((m.map encodeTriangle).flatten) = m := by
  induction m with
  | nil => rfl
  | cons t ts ih =>
      simp only [List.map_cons, List.flatten_cons, List.length_cons, rtris]
      rw [rtri_encode t _ (h t (by simp))]
      rw [ih (fun u hu => h u (by simp [hu]))]

/-- Binary round trip: the spec decoder inverts the spec encoder on any
nonempty mesh within the sane triangle bound. -/
theorem decodeBinary_encodeBinary (m : List Triangle) (hne : m ≠ [])
    (hb : m.length ≤ 5000000) (hok : ∀ t ∈ m, TriangleOK t) :
    decodeBinary (encodeBinary m) = .ok m := by
  have hlen5 : m.length < 2^32 := by omega
  have hr := readU32_encodeBinary m hlen5
  have hl := encodeBinary_length m
  have hne' : m.length ≠ 0 := fun h0 => hne (List.length_eq_zero.mp h0)
  have hdrop : (encodeBinary m).drop 84 = (m.map encodeTriangle).flatten := by
    rw [encodeBinary]
    rw [show (84 : ℕ) = (List.replicate 80 (0 : ℕ) ++ u32le m.length).length from by
      simp [u32le]]
    exact List.drop_left _ _
  unfold decodeBinary
  rw [hr]
  rw [if_pos ⟨by omega, by omega, hb⟩, if_neg hne', hdrop, rtris_encode m hok]

/-- ASCII facet blocks parse back to the mesh they serialize. -/
theorem decodeFacets_encode (m : List ATriangle) :
    decodeFacets ((m.map facetToks).flatten ++ [Tok.endsolid]) = some m := by
  induction m with
  | nil => rfl
  | cons t ts ih =>
      simp [facetToks, decodeFacets, ih]

/-- ASCII round trip: the spec decoder inverts the spec encoder on any
nonempty mesh, token for token and value for value. -/
theorem decodeAscii_encodeAscii (m : List ATriangle) (h : m ≠ []) :
    decodeAscii (encodeAscii m) = .ok m := by
  cases m with
  | nil => exact absurd rfl h
  | cons t ts =>
      have hd := decodeFacets_encode (t :: ts)
      show (match decodeFacets ((List.map facetToks (t :: ts)).flatten ++ [Tok.endsolid]) with
            | some [] => Except.error MeshError.emptyMesh
            | some ts => Except.ok ts
            | none => Except.error MeshError.unrecognizedFormat)
          = Except.ok (t :: ts)
      rw [hd]

/-- C3 (amended): for every nonempty mesh of 32-bit payloads within the
sane triangle bound, the binary decode of the binary encode is the
identity (bit-exact), and for every nonempty mesh of exact numeric
values the ASCII decode of the ASCII encode returns every normal and
vertex value unchanged. -/
theorem C3_roundtrip :
    ∀ (mb : List Triangle) (ma : List ATriangle),
      mb ≠ [] → mb.length ≤ 5000000 → (∀ t ∈ mb, TriangleOK t) → ma ≠ [] →
      decodeBinary (encodeBinary mb) = .ok mb ∧
      decodeAscii (encodeAscii ma) = .ok ma :=
  fun mb ma h1 h2 h3 h4 =>
    ⟨decodeBinary_encodeBinary mb h1 h2 h3, decodeAscii_encodeAscii ma h4⟩

/-- C3 (counterexample): the claim fails for the empty mesh — both spec
decoders return `EmptyMesh` on the encoding of the empty mesh instead
of the mesh itself, per the spec's own zero-facet rule. -/
theorem C3_counterexample :
    decodeBinary (encodeBinary ([] : List Triangle)) = .error .emptyMesh ∧
    decodeAscii (encodeAscii ([] : List ATriangle)) = .error .emptyMesh :=
  ⟨rfl, rfl⟩

/-- C3 (witness): the round trip at concrete one-triangle meshes. -/
theorem C3_witness :
    decodeBinary (encodeBinary [sampleTriangle]) = .ok [sampleTriangle] ∧
    decodeAscii (encodeAscii [sampleATriangle]) = .ok [sampleATriangle] :=
  C3_roundtrip [sampleTriangle] [sampleATriangle] (by decide) (by decide) (by decide)
    (List.cons_ne_nil _ _)

end MortiseSpec
